import Mathlib

set_option maxHeartbeats 4000000
set_option maxRecDepth 4000

/-!
Verification of the Ask-Ed chatbot request pipeline (`src/pages/api/ask.ts`,
final revision of the file: the declarations from line 836 on).

The TypeScript source is shallowly embedded: strings are `String` / `List Char`,
`Date.now()` timestamps are `Nat` milliseconds, JavaScript `Map` objects become
insertion-ordered association lists, and the regex-based `String.replace` chains
of `processAskEdResponse` are hand-compiled to character-level scanners with the
exact matching semantics of the individual regexes (ordered alternation, greedy
character classes that cannot cross their stop character, word boundaries,
case-insensitive flags, first-occurrence-only for non-global regexes).
External I/O (the datasheet fetch and the OpenAI call) is passed in as oracle
values describing the outcome of the suspension point. Case folding models the
ASCII fragment of JavaScript `toLowerCase`, and `\s` / `trim` model the ASCII
whitespace characters; all string constants in the source are ASCII, so the
embedding agrees with the JavaScript behavior on them.
-/

namespace AskEd

/-! ## Basic character and list-of-character utilities -/

/-- ASCII lower-casing of one character (the fragment of JavaScript
`toLowerCase` exercised by the source, whose keywords are all ASCII). -/
def lc (c : Char) : Char :=
  if 'A' ≤ c ∧ c ≤ 'Z' then Char.ofNat (c.toNat + 32) else c

/-- ASCII lower-casing of a character list (JavaScript `toLowerCase`). -/
def lcL (s : List Char) : List Char := s.map lc

/-- Word character for the JavaScript `\b` word-boundary assertion:
`[A-Za-z0-9_]`. -/
def isWordChar (c : Char) : Bool :=
  ('A' ≤ c && c ≤ 'Z') || ('a' ≤ c && c ≤ 'z') || ('0' ≤ c && c ≤ '9') || c == '_'

/-- Word-ness of an optional character; the edge of the string is non-word. -/
def isWordO : Option Char → Bool
  | none => false
  | some c => isWordChar c

/-- A `\b` word boundary holds between two (optional) characters exactly when
their word-ness differs. -/
def bnd (l r : Option Char) : Bool := isWordO l != isWordO r

/-- JavaScript `\s` (ASCII fragment): space, tab, LF, VT, FF, CR. -/
def isSpaceJS (c : Char) : Bool :=
  c == ' ' || c == '\t' || c == '\n' || c == '\x0b' || c == '\x0c' || c == '\r'

/-- Case-sensitive "is `p` a prefix of `s`" on character lists. -/
def isPre : List Char → List Char → Bool
  | [], _ => true
  | _ :: _, [] => false
  | p :: ps, c :: cs => p == c && isPre ps cs

/-- Case-insensitive (ASCII) "is `p` a prefix of `s`". -/
def isPreCI : List Char → List Char → Bool
  | [], _ => true
  | _ :: _, [] => false
  | p :: ps, c :: cs => lc p == lc c && isPreCI ps cs

/-- Case-sensitive substring test (JavaScript `String.includes`). -/
def hasSub (k : List Char) : List Char → Bool
  | [] => isPre k []
  | c :: cs => isPre k (c :: cs) || hasSub k cs

/-- Case-insensitive substring test. -/
def hasSubCI (k : List Char) : List Char → Bool
  | [] => isPreCI k []
  | c :: cs => isPreCI k (c :: cs) || hasSubCI k cs

/-- Index of the first occurrence of substring `k` (JavaScript `indexOf`,
`none` for `-1`). -/
def idxOfSub (k : List Char) : List Char → Option Nat
  | [] => if isPre k [] then some 0 else none
  | c :: cs => if isPre k (c :: cs) then some 0 else (idxOfSub k cs).map (· + 1)

/-- Index of the first occurrence of a single character. -/
def idxOfChar (ch : Char) : List Char → Option Nat
  | [] => none
  | c :: cs => if c == ch then some 0 else (idxOfChar ch cs).map (· + 1)

/-- Case-insensitive "does `s` end with `k`". -/
def endsWithCI (k s : List Char) : Bool :=
  decide (k.length ≤ s.length) && isPreCI k (s.drop (s.length - k.length))

/-- Number of non-overlapping occurrences of `k` in `s`, scanning left to
right (used to count hyperlinks in post-processed answers). -/
def countSubGo (k : List Char) : Nat → List Char → Nat
  | _, [] => 0
  | Nat.succ n, _ :: cs => countSubGo k n cs
  | 0, c :: cs =>
    if isPre k (c :: cs) then 1 + countSubGo k (k.length - 1) cs
    else countSubGo k 0 cs

/-- Non-overlapping occurrence count of `k.data` in `s.data`. -/
def countSub (s k : String) : Nat := countSubGo k.data 0 s.data

/-- JavaScript `String.prototype.trim` (ASCII whitespace fragment). -/
def trimJS (s : List Char) : List Char :=
  ((s.dropWhile isSpaceJS).reverse.dropWhile isSpaceJS).reverse

/-! ## Insertion-ordered maps (JavaScript `Map`) as association lists -/

/-- `Map.get`: first (unique) binding of `key`. -/
def assocFind {α : Type} : List (String × α) → String → Option α
  | [], _ => none
  | (k, v) :: rest, key => if k = key then some v else assocFind rest key

/-- `Map.set`: overwrite in place (JavaScript `Map` keeps the original
insertion position of an existing key), append fresh keys at the end. -/
def assocSet {α : Type} : List (String × α) → String → α → List (String × α)
  | [], key, v => [(key, v)]
  | (k, w) :: rest, key, v =>
    if k = key then (k, v) :: rest else (k, w) :: assocSet rest key v

/-- `Map.delete` (keys are unique, so deleting the first binding suffices). -/
def assocDelete {α : Type} : List (String × α) → String → List (String × α)
  | [], _ => []
  | (k, w) :: rest, key => if k = key then rest else (k, w) :: assocDelete rest key

/-! ## Rate limiting (`isRateLimited`, ask.ts lines 1042-1075)

The store is `rateLimitStore : Map<string, {count, resetTime, dailyCount,
dailyResetTime}>` (line 850).  JavaScript mutates the per-client record in
place; the embedding threads the store explicitly.  Partial mutations made
before an early `return true` persist, which `rlMinute`'s `assocSet` with the
possibly-daily-reset record reproduces. -/

structure UserLimit where
  count : Nat
  resetMs : Nat
  dailyCount : Nat
  dailyResetMs : Nat
deriving DecidableEq, Repr

/-- The fall-through tail of `isRateLimited`: `userLimit.count++;
userLimit.dailyCount++; return false;`. -/
def rlFinish (store : List (String × UserLimit)) (ip : String) (u : UserLimit) :
    Bool × List (String × UserLimit) :=
  (false, assocSet store ip ⟨u.count + 1, u.resetMs, u.dailyCount + 1, u.dailyResetMs⟩)

/-- The per-minute half of `isRateLimited` (lines 1064-1074), entered with the
record as left by the daily-window half. -/
def rlMinute (store : List (String × UserLimit)) (ip : String) (now : Nat)
    (u : UserLimit) : Bool × List (String × UserLimit) :=
  if u.resetMs < now then
    rlFinish store ip ⟨1, now + 60000, u.dailyCount, u.dailyResetMs⟩
  else if 5 ≤ u.count then (true, assocSet store ip u)
  else rlFinish store ip u

/-- `isRateLimited(userIP)` at time `now` (ask.ts lines 1042-1075). Returns the
boolean result and the updated store. -/
def isRateLimited (store : List (String × UserLimit)) (ip : String) (now : Nat) :
    Bool × List (String × UserLimit) :=
  match assocFind store ip with
  | none => (false, assocSet store ip ⟨1, now + 60000, 1, now + 86400000⟩)
  | some u0 =>
    if u0.dailyResetMs < now then
      rlMinute store ip now ⟨u0.count, u0.resetMs, 1, now + 86400000⟩
    else if 50 ≤ u0.dailyCount then (true, store)
    else rlMinute store ip now u0

/-- Run a sequence of `isRateLimited` calls for one client at the given
timestamps, collecting the results. -/
def runRL (ip : String) : List (String × UserLimit) → List Nat →
    List Bool × List (String × UserLimit)
  | store, [] => ([], store)
  | store, t :: ts =>
    let r := isRateLimited store ip t
    let rest := runRL ip r.2 ts
    (r.1 :: rest.1, rest.2)

/-! ## Content cache (ask.ts lines 836-839 and 1089-1126) -/

structure CacheEntry where
  content : String
  timestamp : Nat
  lastUsed : Nat
deriving DecidableEq, Repr

abbrev Cache := List (String × CacheEntry)

/-- `CACHE_DURATION = 2592000000` (30 days in milliseconds, line 838). -/
def CACHE_DURATION : Nat := 2592000000

/-- `MAX_CACHE_SIZE = 1000` (line 839). -/
def MAX_CACHE_SIZE : Nat := 1000

/-- Stable insertion into a list sorted by ascending `lastUsed` (ties keep the
earlier element first, as JavaScript's stable `Array.prototype.sort` does). -/
def insertLU (e : String × CacheEntry) : Cache → Cache
  | [] => [e]
  | x :: xs => if e.2.lastUsed ≤ x.2.lastUsed then e :: x :: xs else x :: insertLU e xs

/-- Stable sort by ascending `lastUsed`:
`entries.sort((a, b) => a[1].lastUsed - b[1].lastUsed)` (line 1104). -/
def sortLU : Cache → Cache
  | [] => []
  | x :: xs => insertLU x (sortLU xs)

/-- `evictOldCacheEntries` (lines 1089-1108), parameterized by the configured
TTL and maximum size (the source uses the constants above): first delete every
entry with `now - timestamp > ttl`; then, if the map size still *strictly
exceeds* `maxSize`, delete the `size - maxSize` entries with the smallest
`lastUsed`. -/
def evictOldCacheEntries (ttl maxSize now : Nat) (cache : Cache) : Cache :=
  let cache1 := cache.filter (fun kv => !decide (ttl < now - kv.2.timestamp))
  if maxSize < cache1.length then
    let toRemove := (sortLU cache1).take (cache1.length - maxSize)
    toRemove.foldl (fun c kv => assocDelete c kv.1) cache1
  else cache1

/-- Touch `lastUsed` of the entry at `key` (the in-place mutation
`cached.lastUsed = Date.now()` of line 1113). -/
def touchLU (cache : Cache) (key : String) (now : Nat) : Cache :=
  cache.map (fun kv => if kv.1 = key then (kv.1, ⟨kv.2.content, kv.2.timestamp, now⟩) else kv)

/-- `getCachedContent` (lines 1110-1117): a fresh entry (`now - timestamp <
ttl`) is returned after touching its `lastUsed`; anything else is `null`. -/
def getCachedContent (ttl : Nat) (cache : Cache) (key : String) (now : Nat) :
    Option String × Cache :=
  match assocFind cache key with
  | some e =>
    if now - e.timestamp < ttl then (some e.content, touchLU cache key now)
    else (none, cache)
  | none => (none, cache)

/-- `setCachedContent` (lines 1119-1126): sweep, then insert/overwrite with
`timestamp = lastUsed = now`. -/
def setCachedContent (ttl maxSize : Nat) (cache : Cache) (key content : String)
    (now : Nat) : Cache :=
  assocSet (evictOldCacheEntries ttl maxSize now cache) key ⟨content, now, now⟩

/-! ## Response post-processing (`processAskEdResponse`, ask.ts lines 1128-1255)

Each JavaScript `String.replace` call is embedded as a left-to-right scanner.
A global (`g`) regex finds the leftmost match, emits its replacement, resumes
scanning *in the source string* right after the matched text (so replacement
text is never rescanned by the same pass), and a non-global regex stops after
the first match.  Every individual pattern of the source resolves to a
deterministic matcher except for ordered alternation and the backtracking
`<a[^>]*href="..."` pattern, which are embedded as ordered / greedy-descending
trials exactly as the JavaScript engine resolves them. -/

/-- The anchor markup written by the source:
`<a href="URL" target="_blank" style="color: white; text-decoration: underline;">TEXT</a>`. -/
def anchorHtml (url text : List Char) : List Char :=
  ("<a href=\"").data ++ url ++
    ("\" target=\"_blank\" style=\"color: white; text-decoration: underline;\">").data ++
    text ++ ("</a>").data

/-- Generic one-pass global replace: `tryM` reports the capture-based
replacement text and the matched length at the current position. `skip`
counts source characters still covered by the previous match. -/
def scanRepl (tryM : List Char → Option (List Char × Nat)) :
    Nat → List Char → List Char
  | Nat.succ n, _ :: cs => scanRepl tryM n cs
  | _, [] => []
  | 0, c :: cs =>
    match tryM (c :: cs) with
    | some (repl, len) => repl ++ scanRepl tryM (len - 1) cs
    | none => c :: scanRepl tryM 0 cs

/-- Global replace with a `linked` flag, for the step-3 callbacks: the first
match becomes `first` (the anchor), every later match becomes `later` (the
plain-text form).  Returns the result and the final flag. -/
def scanReplFlag (tryM : List Char → Option Nat) (first later : List Char) :
    Bool → Nat → List Char → List Char × Bool
  | f, Nat.succ n, _ :: cs => scanReplFlag tryM first later f n cs
  | f, _, [] => ([], f)
  | f, 0, c :: cs =>
    match tryM (c :: cs) with
    | some len =>
      let r := scanReplFlag tryM first later true (len - 1) cs
      ((if f then later else first) ++ r.1, r.2)
    | none =>
      let r := scanReplFlag tryM first later f 0 cs
      (c :: r.1, r.2)

/-- Does the case-sensitive literal `lit` match at the head of `s` with `\b`
word boundaries on both sides (`prev` is the character before the position)? -/
def wbLitAt (lit : List Char) (prev : Option Char) (s : List Char) : Bool :=
  isPre lit s && bnd prev lit.head? && bnd lit.getLast? (s.drop lit.length).head?

/-- Non-global `\bLIT\b` replace: rewrite only the first occurrence, report
whether one was found (the step-4 callbacks set their flag exactly then). -/
def replFirstWB (lit first : List Char) : Option Char → List Char → List Char × Bool
  | _, [] => ([], false)
  | prev, c :: cs =>
    if wbLitAt lit prev (c :: cs) then (first ++ (c :: cs).drop lit.length, true)
    else
      let r := replFirstWB lit first (some c) cs
      (c :: r.1, r.2)

/-- The disallowed bracket texts of step 1:
`/\[(Mean Well|Mean|Meanwell|link)\]\([^)]*\)/gi`, in alternation order. -/
def mdBadNames : List (List Char) :=
  [("Mean Well").data, ("Mean").data, ("Meanwell").data, ("link").data]

/-- Ordered alternation for the step-1 pattern: after `[`, try each name (case
insensitively); the remainder must continue `](`, then any `)`-free run, then
`)`.  The capture `$1` is the name as it appeared in the text. -/
def tryAltMd (rest : List Char) : List (List Char) → Option (List Char × Nat)
  | [] => none
  | alt :: alts =>
    if isPreCI alt rest then
      match rest.drop alt.length with
      | ']' :: '(' :: tail =>
        match idxOfChar ')' tail with
        | some j => some (rest.take alt.length, 1 + alt.length + 2 + j + 1)
        | none => tryAltMd rest alts
      | _ => tryAltMd rest alts
    else tryAltMd rest alts

/-- Step 1a: `answer.replace(/\[(Mean Well|Mean|Meanwell|link)\]\([^)]*\)/gi, '$1')`. -/
def tryMdBad1 (s : List Char) : Option (List Char × Nat) :=
  match s with
  | '[' :: rest => tryAltMd rest mdBadNames
  | _ => none

/-- Step 1b: `/\[([^\]]+)\]\((?!https?:\/\/)[^)]*\.html\)/gi` replaced by the
bracket text: a markdown link whose target is not a fully-qualified http(s)
URL and ends in `.html` is demoted to its visible text. -/
def tryMdHtml (s : List Char) : Option (List Char × Nat) :=
  match s with
  | '[' :: rest =>
    match idxOfChar ']' rest with
    | some tl =>
      if tl == 0 then none
      else
        match rest.drop (tl + 1) with
        | '(' :: tail =>
          if isPreCI (("http://").data) tail || isPreCI (("https://").data) tail then none
          else
            match idxOfChar ')' tail with
            | some j =>
              if endsWithCI ((".html").data) (tail.take j) then
                some (rest.take tl, 1 + tl + 1 + 1 + j + 1)
              else none
            | none => none
        | _ => none
    | none => none
  | _ => none

/-- The placeholder targets of step 1c, in alternation order. -/
def brokenTargets : List (List Char) :=
  [("link").data, ("#").data, ("javascript:").data, ("data:").data]

/-- Ordered alternation for step 1c: the whole target must be one of the
placeholders, immediately followed by `)`. -/
def tryTargetAlt (tail : List Char) : List (List Char) → Option Nat
  | [] => none
  | alt :: alts =>
    if isPreCI alt tail then
      match tail.drop alt.length with
      | ')' :: _ => some alt.length
      | _ => tryTargetAlt tail alts
    else tryTargetAlt tail alts

/-- Step 1c: `/\[([^\]]+)\]\((link|#|javascript:|data:)\)/gi` replaced by the
bracket text. -/
def tryMdBroken (s : List Char) : Option (List Char × Nat) :=
  match s with
  | '[' :: rest =>
    match idxOfChar ']' rest with
    | some tl =>
      if tl == 0 then none
      else
        match rest.drop (tl + 1) with
        | '(' :: tail =>
          match tryTargetAlt tail brokenTargets with
          | some al => some (rest.take tl, 1 + tl + 1 + 1 + al + 1)
          | none => none
        | _ => none
    | none => none
  | _ => none

/-- The fixed quote-request URL. -/
def rfqUrl : List Char := ("https://www.bravoelectro.com/rfq-form").data

/-- The exact markdown form matched by step 3 for the RFQ entity. -/
def rfqMdLit : List Char := ("[RFQ Form](https://www.bravoelectro.com/rfq-form)").data

/-- Step 3, RFQ: `/\[RFQ Form\]\(https:\/\/www\.bravoelectro\.com\/rfq-form\)/gi`. -/
def tryRfqMd (s : List Char) : Option Nat :=
  if isPreCI rfqMdLit s then some rfqMdLit.length else none

/-- Step 3, datasheet: `/\[datasheet\]\([^)]+\)/gi` (the 12 characters
`[datasheet](`, then a nonempty `)`-free run, then `)`). -/
def tryDsMd (s : List Char) : Option Nat :=
  if isPreCI (("[datasheet](").data) s then
    match idxOfChar ')' (s.drop 12) with
    | some j => if j == 0 then none else some (12 + j + 1)
    | none => none
  else none

/-- Step 3, product: `[MODEL](`, a nonempty `)`-free run, `)`, with the
escaped model number matched case-insensitively (`gi`). -/
def tryModelMd (model : List Char) (s : List Char) : Option Nat :=
  if isPreCI (('[' :: model) ++ [']', '(']) s then
    match idxOfChar ')' (s.drop (model.length + 3)) with
    | some j => if j == 0 then none else some (model.length + 3 + j + 1)
    | none => none
  else none

/-- Characters accepted by the model-number prefix regex
`/^([A-Z0-9\-\.]+)/i` of the product title. -/
def isModelChar (c : Char) : Bool :=
  ('A' ≤ c && c ≤ 'Z') || ('a' ≤ c && c ≤ 'z') || ('0' ≤ c && c ≤ '9') ||
    c == '-' || c == '.'

/-- `productTitle.match(/^([A-Z0-9\-\.]+)/i)`: the (nonempty) leading run of
model-number characters. -/
def extractModel (title : List Char) : Option (List Char) :=
  let run := title.takeWhile isModelChar
  if run.isEmpty then none else some run

/-- `modelNumber.toLowerCase().replace(/\./g, '-')`. -/
def modelSlug (model : List Char) : List Char :=
  (lcL model).map (fun c => if c == '.' then '-' else c)

/-- `https://www.bravoelectro.com/${urlSlug}.html`. -/
def productUrlOf (model : List Char) : List Char :=
  ("https://www.bravoelectro.com/").data ++ modelSlug model ++ (".html").data

/-- The link text chosen by step 5's keyword sniffing on a raw URL
(case-sensitive `String.includes`, in the source's branch order; the initial
`'link'` value is dead because every branch assigns). -/
def sniffText (url : List Char) : List Char :=
  if hasSub (("bravoelectro.com/rfq-form").data) url then ("RFQ Form").data
  else if hasSub (("datasheet").data) url || hasSub ((".pdf").data) url then ("datasheet").data
  else if hasSub (("bravoelectro.com").data) url then ("product page").data
  else if hasSub (("meanwell").data) url then ("datasheet").data
  else ("here").data

/-- Step 5 matcher: `/\bhttps?:\/\/[^\s\)]+/gi` at the current position
(`prev` is the previous source character, for the `\b`). -/
def tryUrl (prev : Option Char) (s : List Char) : Option Nat :=
  if bnd prev s.head? && isPreCI (("http").data) s then
    let afterScheme :=
      if isPreCI (("s://").data) (s.drop 4) then some 8
      else if isPreCI (("://").data) (s.drop 4) then some 7
      else none
    match afterScheme with
    | some k =>
      let run := (s.drop k).takeWhile (fun c => !(isSpaceJS c) && c != ')')
      if run.length == 0 then none else some (k + run.length)
    | none => none
  else none

/-- Step 5: wrap every remaining raw URL in an anchor whose text is chosen by
`sniffText`.  The scanner threads the previous source character for `\b`. -/
def scanUrls : Option Char → Nat → List Char → List Char
  | _, Nat.succ n, c :: cs => scanUrls (some c) n cs
  | _, _, [] => []
  | prev, 0, c :: cs =>
    match tryUrl prev (c :: cs) with
    | some len =>
      let url := (c :: cs).take len
      anchorHtml url (sniffText url) ++ scanUrls (some c) (len - 1) cs
    | none => c :: scanUrls (some c) 0 cs

/-- Step 6a: `/\[([^\]]+)\]\(\)/g` replaced by the bracket text. -/
def tryEmptyMd (s : List Char) : Option (List Char × Nat) :=
  match s with
  | '[' :: rest =>
    match idxOfChar ']' rest with
    | some tl =>
      if tl == 0 then none
      else if isPre (("()").data) (rest.drop (tl + 1)) then
        some (rest.take tl, 1 + tl + 1 + 2)
      else none
    | none => none
  | _ => none

/-- One backtracking trial of step 6b at `href="` offset `j` inside the
`>`-free region after `<a`. -/
def tryMeanHtmlAt (tail : List Char) (j : Nat) : Option (List Char × Nat) :=
  if isPreCI (("href=\"").data) (tail.drop j) then
    let q := tail.drop (j + 6)
    match idxOfChar '"' q with
    | some m =>
      if endsWithCI (("mean.html").data) (q.take m) then
        let r := q.drop (m + 1)
        match idxOfChar '>' r with
        | some g2 =>
          let tt := r.drop (g2 + 1)
          match idxOfChar '<' tt with
          | some x =>
            if x == 0 then none
            else if isPreCI (("</a>").data) (tt.drop x) then
              some (tt.take x, 2 + j + 6 + m + 1 + g2 + 1 + x + 4)
            else none
          | none => none
        | none => none
      else none
    | none => none
  else none

/-- Step 6b: `/<a[^>]*href="[^"]*mean\.html"[^>]*>([^<]+)<\/a>/gi` replaced by
the visible text.  The greedy `[^>]*` is resolved by trying the `href="`
offsets of the `>`-free region in descending order. -/
def tryMeanHtml (s : List Char) : Option (List Char × Nat) :=
  if isPreCI (("<a").data) s then
    let tail := s.drop 2
    match idxOfChar '>' tail with
    | some firstGt => ((List.range (firstGt + 1)).reverse).findSome? (tryMeanHtmlAt tail)
    | none => none
  else none

/-- Step 6c: `/<a[^>]*>link<\/a>/gi` replaced by `link`. -/
def tryLinkAnchor (s : List Char) : Option (List Char × Nat) :=
  if isPreCI (("<a").data) s then
    match idxOfChar '>' (s.drop 2) with
    | some g =>
      if isPreCI (("link</a>").data) (s.drop (2 + g + 1)) then
        some (("link").data, 2 + g + 1 + 8)
      else none
    | none => none
  else none

/-- `processAskEdResponse(answer, datasheetUrl?, productTitle?)` (ask.ts lines
1128-1255) on character lists.  The optional string arguments follow
JavaScript truthiness: the empty list plays `undefined`/`''`. -/
def processAskEdResponseL (answer datasheetUrl productTitle : List Char) : List Char :=
  let a1 := scanRepl tryMdBad1 0 answer
  let a2 := scanRepl tryMdHtml 0 a1
  let a3 := scanRepl tryMdBroken 0 a2
  let r4 := scanReplFlag tryRfqMd (anchorHtml rfqUrl (("RFQ Form").data))
    (("RFQ Form").data) false 0 a3
  let a4 := r4.1
  let rfqLinked := r4.2
  let r5 :=
    if datasheetUrl.isEmpty then (a4, false)
    else scanReplFlag tryDsMd (anchorHtml datasheetUrl (("datasheet").data))
      (("datasheet").data) false 0 a4
  let a5 := r5.1
  let dsLinked := r5.2
  let modelQ := if productTitle.isEmpty then none else extractModel productTitle
  let r6 :=
    match modelQ with
    | none => (a5, false)
    | some m => scanReplFlag (tryModelMd m) (anchorHtml (productUrlOf m) m) m false 0 a5
  let a6 := r6.1
  let prodLinked := r6.2
  let a7 :=
    if rfqLinked then a6
    else (replFirstWB (("RFQ Form").data) (anchorHtml rfqUrl (("RFQ Form").data)) none a6).1
  let a8 :=
    if datasheetUrl.isEmpty || dsLinked then a7
    else (replFirstWB (("datasheet").data)
      (anchorHtml datasheetUrl (("datasheet").data)) none a7).1
  let a9 :=
    match modelQ with
    | none => a8
    | some m =>
      if prodLinked then a8
      else (replFirstWB m (anchorHtml (productUrlOf m) m) none a8).1
  let a10 := scanUrls none 0 a9
  let a11 := scanRepl tryEmptyMd 0 a10
  let a12 := scanRepl tryMeanHtml 0 a11
  let a13 := scanRepl tryLinkAnchor 0 a12
  trimJS a13

/-- `processAskEdResponse` on `String`s; `""` plays the absent
(`undefined`) optional argument, matching JavaScript string truthiness. -/
def processAskEdResponse (answer datasheetUrl productTitle : String) : String :=
  String.mk (processAskEdResponseL answer.data datasheetUrl.data productTitle.data)

/-! ## Section extraction (`extractSection`, ask.ts lines 1403-1413) -/

/-- `extractSection` body on character lists: lower-case the text, try the
keywords in order, and slice `text.substring(index, Math.min(index +
maxLength, text.length))` from the *original* text at the first keyword that
occurs; `''` when none does. -/
def extractSectionL (t : List Char) : List (List Char) → Nat → List Char
  | [], _ => []
  | k :: ks, maxLen =>
    match idxOfSub (lcL k) (lcL t) with
    | some i => (t.drop i).take (min (i + maxLen) t.length - i)
    | none => extractSectionL t ks maxLen

/-- `extractSection(text, keywords, maxLength)`. -/
def extractSection (text : String) (keywords : List String) (maxLength : Nat) : String :=
  String.mk (extractSectionL text.data (keywords.map String.data) maxLength)

/-! ## Datasheet content combination (`fetchPDFContent`, ask.ts lines 1258-1401) -/

def modelTableKeys : List String :=
  ["model no", "part number", "ordering information", "model table", "specifications table"]

def voltageAdjustKeys : List String :=
  ["voltage adj. range", "voltage adjustment", "vadj", "output voltage adjustment",
   "potentiometer", "trim pot", "adjustment range", "voltage adj range"]

def currentAdjustKeys : List String :=
  ["current adj. range", "current adjustment", "iadj", "output current adjustment",
   "current adj range"]

def mechanicalKeys : List String :=
  ["mechanical specification", "mechanical drawing", "mounting", "dimensions",
   "hole diameter", "hole spacing", "mounting holes", "mechanical dimension"]

def constantCurrentKeys : List String :=
  ["constant current region", "constant current", "cc region", "current region",
   "constant current area"]

def electricalKeys : List String :=
  ["electrical specification", "electrical characteristics", "electrical spec"]

def suffixInfoKeys : List String :=
  ["model suffix", "suffix code", "model code", "ordering information", "model designation"]

def dimmingKeys : List String := ["dimming", "dim function", "dimming operation"]

def featuresKeys : List String := ["features", "key features"]

/-- The header plus the eight labelled section blocks appended by
`fetchPDFContent` (lines 1315-1374), each included only when its section was
found.  (The source also computes a `features` section but never appends it.) -/
def sectionBlocks (p : String) : String :=
  ("COMPLETE DATASHEET CONTENT:\n\n")
  ++ (if extractSection p electricalKeys 3000 = "" then ("")
      else ("ELECTRICAL SPECIFICATIONS:\n") ++ extractSection p electricalKeys 3000 ++ ("\n\n"))
  ++ (if extractSection p voltageAdjustKeys 3000 = "" then ("")
      else ("VOLTAGE ADJUSTMENT:\n") ++ extractSection p voltageAdjustKeys 3000 ++ ("\n\n"))
  ++ (if extractSection p currentAdjustKeys 2000 = "" then ("")
      else ("CURRENT ADJUSTMENT:\n") ++ extractSection p currentAdjustKeys 2000 ++ ("\n\n"))
  ++ (if extractSection p mechanicalKeys 2000 = "" then ("")
      else ("MECHANICAL SPECIFICATIONS:\n") ++ extractSection p mechanicalKeys 2000 ++ ("\n\n"))
  ++ (if extractSection p suffixInfoKeys 1500 = "" then ("")
      else ("MODEL SUFFIX INFORMATION:\n") ++ extractSection p suffixInfoKeys 1500 ++ ("\n\n"))
  ++ (if extractSection p constantCurrentKeys 2000 = "" then ("")
      else ("CONSTANT CURRENT REGION:\n") ++ extractSection p constantCurrentKeys 2000 ++ ("\n\n"))
  ++ (if extractSection p modelTableKeys 4000 = "" then ("")
      else ("MODEL/SPECIFICATIONS TABLE:\n") ++ extractSection p modelTableKeys 4000 ++ ("\n\n"))
  ++ (if extractSection p dimmingKeys 1500 = "" then ("")
      else ("DIMMING INFORMATION:\n") ++ extractSection p dimmingKeys 1500 ++ ("\n\n"))

/-- The raw-text fallback block
`ADDITIONAL DATASHEET TEXT:\n${pdfContent.substring(0, 4000)}\n` (lines 1377-1381). -/
def fallbackBlock (p : String) : String :=
  ("ADDITIONAL DATASHEET TEXT:\n") ++ String.mk (p.data.take 4000) ++ ("\n")

/-- The `combinedContent` string built by `fetchPDFContent` from the decoded
text `p`: the labelled blocks, then the raw-text fallback exactly under the
source condition `!sections.electrical || !sections.voltageAdjust`. -/
def combineContent (p : String) : String :=
  sectionBlocks p ++
    (if extractSection p electricalKeys 3000 = "" ∨ extractSection p voltageAdjustKeys 3000 = ""
     then fallbackBlock p else (""))

/-- `fetchPDFContent(url)` (lines 1258-1401).  The cache is threaded; the
fetch/decode suspension is the oracle `fetchRes` (`Except.error` covers a
network error, a non-ok status, and a `pdfParse` failure, all caught by the
source's `try/catch` which returns `''`); `pdfAvail` is the `pdfParse`
library's availability.  A cache hit is JavaScript-truthy only when nonempty. -/
def fetchPDFContent (pdfAvail : Bool) (fetchRes : Except Unit String) (cache : Cache)
    (url : String) (now : Nat) : String × Cache :=
  let g := getCachedContent CACHE_DURATION cache url now
  if g.1.getD ("") ≠ "" then (g.1.getD (""), g.2)
  else if !pdfAvail then (("" : String), g.2)
  else
    match fetchRes with
    | Except.error _ => (("" : String), g.2)
    | Except.ok text =>
      let finalContent := String.mk ((combineContent text).data.take 2000)
      (finalContent, setCachedContent CACHE_DURATION MAX_CACHE_SIZE g.2 url finalContent now)

/-! ## Input validation (`validateInput`, ask.ts lines 1077-1087) -/

/-- A JavaScript regex line terminator (`.` does not match these); ASCII
fragment. -/
def lineTerm (c : Char) : Bool := c == '\n' || c == '\r'

/-- Does some word of `ws` match case-insensitively at the head of `s`? -/
def anyPreCI (ws : List (List Char)) (s : List Char) : Bool :=
  ws.any (fun w => isPreCI w s)

/-- `.*(previous|instruction|prompt)`: search forward, without crossing a line
terminator, for a position where some word of `ws` matches. -/
def searchSameLine (ws : List (List Char)) : List Char → Bool
  | [] => false
  | c :: cs => anyPreCI ws (c :: cs) || (!lineTerm c && searchSameLine ws cs)

/-- Try each first-group word at the current position, requiring the
second group somewhere to the right on the same line. -/
def tryW1 (ws2 : List (List Char)) (s : List Char) : List (List Char) → Bool
  | [] => false
  | w :: ws => (isPreCI w s && searchSameLine ws2 (s.drop w.length)) || tryW1 ws2 s ws

/-- `/\b(ignore|forget|disregard).*(previous|instruction|prompt)/gi.test(q)`. -/
def scanInj (ws1 ws2 : List (List Char)) : Option Char → List Char → Bool
  | _, [] => false
  | prev, c :: cs =>
    (bnd prev (some c) && tryW1 ws2 (c :: cs) ws1) || scanInj ws1 ws2 (some c) cs

/-- `/\b(act as|you are now|roleplay)/gi.test(q)`. -/
def scanRole (ws : List (List Char)) : Option Char → List Char → Bool
  | _, [] => false
  | prev, c :: cs => (bnd prev (some c) && anyPreCI ws (c :: cs)) || scanRole ws (some c) cs

def injWords1 : List (List Char) := [("ignore").data, ("forget").data, ("disregard").data]

def injWords2 : List (List Char) := [("previous").data, ("instruction").data, ("prompt").data]

def roleWords : List (List Char) := [("act as").data, ("you are now").data, ("roleplay").data]

/-- `validateInput(question)` (lines 1077-1087): `true` when none of the four
suspicious patterns matches. -/
def validateInput (question : String) : Bool :=
  let q := question.data
  let suspicious :=
    q.any (fun c => c == '<' || c == '>' || c == '\x7b' || c == '\x7d') ||
    (hasSubCI (("javascript:").data) q || hasSubCI (("data:").data) q) ||
    scanInj injWords1 injWords2 none q ||
    scanRole roleWords none q
  !suspicious

/-! ## Request handler (`handler`, ask.ts lines 1415-1543) -/

/-- `req.headers['x-forwarded-for']?.toString()?.split(',')[0] ||
req.socket.remoteAddress || 'unknown'` (lines 1459-1460). -/
def computeUserIP (xff : Option String) (remote : Option String) : String :=
  let fromHeader :=
    match xff with
    | some h => (h.splitOn (",")).headD ("")
    | none => ("" : String)
  if fromHeader ≠ "" then fromHeader
  else
    match remote with
    | some r => if r ≠ "" then r else ("unknown" : String)
    | none => ("unknown" : String)

/-- Everything outside the handler's control, including the outcomes of its
two suspension points (datasheet fetch/decode and the OpenAI call; the latter
is `Except.ok content` with the completion's possibly-null `content`). -/
structure Env where
  method : String
  xff : Option String
  remoteAddr : Option String
  now : Nat
  pdfAvail : Bool
  fetchResult : Except Unit String
  modelResult : Except Unit (Option String)

/-- The destructured `req.body` fields; a missing field is `""` (both are
JavaScript-falsy and fail the sentinel equality, so the embedding agrees). -/
structure ReqBody where
  question : String
  productSpecs : String
  productTitle : String
  datasheetUrl : String
  similarProducts : String
  accessories : String

/-- The module-level mutable state: the rate-limit store and the two caches. -/
structure ServerState where
  rateLimitStore : List (String × UserLimit)
  pdfCache : Cache
  productPageCache : Cache
deriving DecidableEq, Repr

/-- The JSON response envelope (`AskResponse`), plus the HTTP status. -/
structure ApiResponse where
  status : Nat
  answer : Option String
  error : Option String
  model : Option String
  version : Option String
  cacheSize : Option Nat
  productPageCacheSize : Option Nat
  maxTokens : Option Nat
deriving DecidableEq, Repr

def emptyResp (status : Nat) : ApiResponse :=
  ⟨status, none, none, none, none, none, none, none⟩

def errResp (status : Nat) (msg : String) : ApiResponse :=
  ⟨status, none, some msg, none, none, none, none, none⟩

def okResp (ans : String) : ApiResponse :=
  ⟨200, some ans, none, none, none, none, none, none⟩

/-- An apostrophe (the source's messages contain them). -/
def apos : String := String.mk [Char.ofNat 39]

/-- The fallback used when the completion content is null or empty. -/
def fallbackAnswer : String :=
  ("I") ++ apos ++ ("m sorry, I couldn") ++ apos ++
    ("t process your question. Please contact a Bravo Power Expert for assistance.")

/-- The fixed 500 message of the handler's catch block. -/
def err500Msg : String :=
  ("I") ++ apos ++
    ("m experiencing technical difficulties. Please contact a Bravo Power Expert via web chat or call 408-733-9090.")

/-- The static diagnostic payload of the `DEBUG_MODEL_CHECK` branch
(lines 1449-1458). -/
def debugResp (st : ServerState) : ApiResponse :=
  ⟨200,
    some ("Currently using model: gpt-4o-mini with enhanced Bravo guidelines. Deployment successful!"),
    none, some ("gpt-4o-mini"), some ("2024-01-12"), some st.pdfCache.length,
    some st.productPageCache.length, some 300⟩

/-- The request handler (lines 1415-1543): CORS preflight, method check,
debug sentinel, field/length/content validation, rate limiting, optional
datasheet extraction, the model call, post-processing.  Returns the response
and the final server state. -/
def handler (env : Env) (body : ReqBody) (st : ServerState) : ApiResponse × ServerState :=
  if env.method = "OPTIONS" then (emptyResp 200, st)
  else if env.method ≠ "POST" then (errResp 405 ("Method not allowed"), st)
  else if body.question = "DEBUG_MODEL_CHECK" then (debugResp st, st)
  else if body.question = "" ∨ body.productSpecs = "" ∨ body.productTitle = "" then
    (errResp 400 ("Missing required fields"), st)
  else if 500 < body.question.length then (errResp 400 ("Question too long"), st)
  else if !validateInput body.question then (errResp 400 ("Invalid input detected"), st)
  else
    let userIP := computeUserIP env.xff env.remoteAddr
    let rl := isRateLimited st.rateLimitStore userIP env.now
    let st1 : ServerState := ⟨rl.2, st.pdfCache, st.productPageCache⟩
    if rl.1 then (errResp 429 ("Rate limit exceeded. Please try again later."), st1)
    else
      let fp :=
        if body.datasheetUrl ≠ "" then
          fetchPDFContent env.pdfAvail env.fetchResult st1.pdfCache body.datasheetUrl env.now
        else (("" : String), st1.pdfCache)
      let st2 : ServerState := ⟨st1.rateLimitStore, fp.2, st1.productPageCache⟩
      match env.modelResult with
      | Except.error _ => (errResp 500 err500Msg, st2)
      | Except.ok content =>
        let raw :=
          match content with
          | some c => if c = "" then fallbackAnswer else c
          | none => fallbackAnswer
        (okResp (processAskEdResponse raw body.datasheetUrl body.productTitle), st2)

/-! ## Rate limiter lemmas and claim C1 -/

/-- A first-sight client is initialized with both counts at 1 and is not
limited. -/
theorem rl_fresh (store : List (String × UserLimit)) (ip : String) (now : Nat)
    (h : assocFind store ip = none) :
    isRateLimited store ip now
      = (false, assocSet store ip ⟨1, now + 60000, 1, now + 86400000⟩) := by
  simp [isRateLimited, h]

/-- Within both windows and under both ceilings, both counters increment and
the call is not limited. -/
theorem rl_step (store : List (String × UserLimit)) (ip : String)
    (now c r dc dr : Nat) (h : assocFind store ip = some ⟨c, r, dc, dr⟩)
    (hd : ¬ dr < now) (hdc : ¬ 50 ≤ dc) (hm : ¬ r < now) (hc : ¬ 5 ≤ c) :
    isRateLimited store ip now = (false, assocSet store ip ⟨c + 1, r, dc + 1, dr⟩) := by
  simp [isRateLimited, h, hd, hdc, rlMinute, hm, hc, rlFinish]

/-- Within both windows with the minute counter at its ceiling, the call is
limited and the record is unchanged. -/
theorem rl_minute_limited (store : List (String × UserLimit)) (ip : String)
    (now c r dc dr : Nat) (h : assocFind store ip = some ⟨c, r, dc, dr⟩)
    (hd : ¬ dr < now) (hdc : ¬ 50 ≤ dc) (hm : ¬ r < now) (hc : 5 ≤ c) :
    isRateLimited store ip now = (true, assocSet store ip ⟨c, r, dc, dr⟩) := by
  simp [isRateLimited, h, hd, hdc, rlMinute, hm, hc]

/-- Once the minute window has elapsed, the counter is reset to 1 and then
incremented by the shared fall-through, leaving it at 2. -/
theorem rl_minute_reset (store : List (String × UserLimit)) (ip : String)
    (now c r dc dr : Nat) (h : assocFind store ip = some ⟨c, r, dc, dr⟩)
    (hd : ¬ dr < now) (hdc : ¬ 50 ≤ dc) (hm : r < now) :
    isRateLimited store ip now
      = (false, assocSet store ip ⟨2, now + 60000, dc + 1, dr⟩) := by
  simp [isRateLimited, h, hd, hdc, rlMinute, hm, rlFinish]

/-- Claim C1, counterexample.  For a fresh client with the per-minute ceiling
N = 5, six calls at time 0 give five not-limited results and a sixth limited
one, as the claim states; but in the new window starting at 61000 ms the
*fifth* call (index 10) already returns limited, whereas the claim predicts a
full new burst of N = 5 not-limited calls before the next is limited. -/
theorem rateLimit_new_window_burst_counterexample :
    (runRL ("client") [] [0, 0, 0, 0, 0, 0, 61000, 61000, 61000, 61000, 61000]).1
      = [false, false, false, false, false, true, false, false, false, false, true] ∧
    ¬ ((runRL ("client") [] [0, 0, 0, 0, 0, 0, 61000, 61000, 61000, 61000, 61000]).1.getD 10 true
        = false) := by
  decide

/-- Claim C1, corrected.  For every fresh client and window start `t0`: the
first N = 5 calls within the 60-second window return not-limited and the
(N+1)th returns limited; after the minute window has elapsed, the resetting
call sets the counter to 1 but then increments it to 2 on its way out, so
only a burst of N - 1 = 4 calls in the new window returns not-limited before
the next call is limited. -/
theorem rateLimit_burst_pattern (t0 : Nat) (ip : String) :
    (runRL ip [] [t0, t0, t0, t0, t0, t0,
      t0 + 61000, t0 + 61000, t0 + 61000, t0 + 61000, t0 + 61000]).1
      = [false, false, false, false, false, true, false, false, false, false, true] := by
  have h1 : ¬ (t0 + 86400000 < t0) := by omega
  have h2 : ¬ (t0 + 60000 < t0) := by omega
  have h3 : ¬ (t0 + 86400000 < t0 + 61000) := by omega
  have h4 : t0 + 60000 < t0 + 61000 := by omega
  have h5 : ¬ (t0 + 61000 + 60000 < t0 + 61000) := by omega
  have e1 : isRateLimited [] ip t0
      = (false, [(ip, (⟨1, t0 + 60000, 1, t0 + 86400000⟩ : UserLimit))]) := by
    simp [isRateLimited, assocFind, assocSet]
  have e2 : isRateLimited [(ip, (⟨1, t0 + 60000, 1, t0 + 86400000⟩ : UserLimit))] ip t0
      = (false, [(ip, (⟨2, t0 + 60000, 2, t0 + 86400000⟩ : UserLimit))]) := by
    rw [rl_step [(ip, (⟨1, t0 + 60000, 1, t0 + 86400000⟩ : UserLimit))] ip t0
      1 (t0 + 60000) 1 (t0 + 86400000) (by simp [assocFind]) h1 (by omega) h2 (by omega)]
    simp [assocSet]
  have e3 : isRateLimited [(ip, (⟨2, t0 + 60000, 2, t0 + 86400000⟩ : UserLimit))] ip t0
      = (false, [(ip, (⟨3, t0 + 60000, 3, t0 + 86400000⟩ : UserLimit))]) := by
    rw [rl_step [(ip, (⟨2, t0 + 60000, 2, t0 + 86400000⟩ : UserLimit))] ip t0
      2 (t0 + 60000) 2 (t0 + 86400000) (by simp [assocFind]) h1 (by omega) h2 (by omega)]
    simp [assocSet]
  have e4 : isRateLimited [(ip, (⟨3, t0 + 60000, 3, t0 + 86400000⟩ : UserLimit))] ip t0
      = (false, [(ip, (⟨4, t0 + 60000, 4, t0 + 86400000⟩ : UserLimit))]) := by
    rw [rl_step [(ip, (⟨3, t0 + 60000, 3, t0 + 86400000⟩ : UserLimit))] ip t0
      3 (t0 + 60000) 3 (t0 + 86400000) (by simp [assocFind]) h1 (by omega) h2 (by omega)]
    simp [assocSet]
  have e5 : isRateLimited [(ip, (⟨4, t0 + 60000, 4, t0 + 86400000⟩ : UserLimit))] ip t0
      = (false, [(ip, (⟨5, t0 + 60000, 5, t0 + 86400000⟩ : UserLimit))]) := by
    rw [rl_step [(ip, (⟨4, t0 + 60000, 4, t0 + 86400000⟩ : UserLimit))] ip t0
      4 (t0 + 60000) 4 (t0 + 86400000) (by simp [assocFind]) h1 (by omega) h2 (by omega)]
    simp [assocSet]
  have e6 : isRateLimited [(ip, (⟨5, t0 + 60000, 5, t0 + 86400000⟩ : UserLimit))] ip t0
      = (true, [(ip, (⟨5, t0 + 60000, 5, t0 + 86400000⟩ : UserLimit))]) := by
    rw [rl_minute_limited [(ip, (⟨5, t0 + 60000, 5, t0 + 86400000⟩ : UserLimit))] ip t0
      5 (t0 + 60000) 5 (t0 + 86400000) (by simp [assocFind]) h1 (by omega) h2 (by omega)]
    simp [assocSet]
  have e7 : isRateLimited [(ip, (⟨5, t0 + 60000, 5, t0 + 86400000⟩ : UserLimit))] ip (t0 + 61000)
      = (false, [(ip, (⟨2, t0 + 61000 + 60000, 6, t0 + 86400000⟩ : UserLimit))]) := by
    rw [rl_minute_reset [(ip, (⟨5, t0 + 60000, 5, t0 + 86400000⟩ : UserLimit))] ip (t0 + 61000)
      5 (t0 + 60000) 5 (t0 + 86400000) (by simp [assocFind]) h3 (by omega) h4]
    simp [assocSet]
  have e8 : isRateLimited [(ip, (⟨2, t0 + 61000 + 60000, 6, t0 + 86400000⟩ : UserLimit))] ip
      (t0 + 61000)
      = (false, [(ip, (⟨3, t0 + 61000 + 60000, 7, t0 + 86400000⟩ : UserLimit))]) := by
    rw [rl_step [(ip, (⟨2, t0 + 61000 + 60000, 6, t0 + 86400000⟩ : UserLimit))] ip (t0 + 61000)
      2 (t0 + 61000 + 60000) 6 (t0 + 86400000) (by simp [assocFind]) h3 (by omega) h5 (by omega)]
    simp [assocSet]
  have e9 : isRateLimited [(ip, (⟨3, t0 + 61000 + 60000, 7, t0 + 86400000⟩ : UserLimit))] ip
      (t0 + 61000)
      = (false, [(ip, (⟨4, t0 + 61000 + 60000, 8, t0 + 86400000⟩ : UserLimit))]) := by
    rw [rl_step [(ip, (⟨3, t0 + 61000 + 60000, 7, t0 + 86400000⟩ : UserLimit))] ip (t0 + 61000)
      3 (t0 + 61000 + 60000) 7 (t0 + 86400000) (by simp [assocFind]) h3 (by omega) h5 (by omega)]
    simp [assocSet]
  have e10 : isRateLimited [(ip, (⟨4, t0 + 61000 + 60000, 8, t0 + 86400000⟩ : UserLimit))] ip
      (t0 + 61000)
      = (false, [(ip, (⟨5, t0 + 61000 + 60000, 9, t0 + 86400000⟩ : UserLimit))]) := by
    rw [rl_step [(ip, (⟨4, t0 + 61000 + 60000, 8, t0 + 86400000⟩ : UserLimit))] ip (t0 + 61000)
      4 (t0 + 61000 + 60000) 8 (t0 + 86400000) (by simp [assocFind]) h3 (by omega) h5 (by omega)]
    simp [assocSet]
  have e11 : isRateLimited [(ip, (⟨5, t0 + 61000 + 60000, 9, t0 + 86400000⟩ : UserLimit))] ip
      (t0 + 61000)
      = (true, [(ip, (⟨5, t0 + 61000 + 60000, 9, t0 + 86400000⟩ : UserLimit))]) := by
    rw [rl_minute_limited [(ip, (⟨5, t0 + 61000 + 60000, 9, t0 + 86400000⟩ : UserLimit))] ip
      (t0 + 61000) 5 (t0 + 61000 + 60000) 9 (t0 + 86400000)
      (by simp [assocFind]) h3 (by omega) h5 (by omega)]
    simp [assocSet]
  simp only [runRL, e1, e2, e3, e4, e5, e6, e7, e8, e9, e10, e11]

/-! ## Content-cache traces and claim C2 -/

/-- Trace cache, TTL 1000000, maximum size 2: after `set A` at 1. -/
def c2cacheA : Cache := setCachedContent 1000000 2 [] ("A") ("contentA") 1

/-- After `set B` at 2. -/
def c2cacheAB : Cache := setCachedContent 1000000 2 c2cacheA ("B") ("contentB") 2

/-- After `get A` at 3 (touches A's recency). -/
def c2afterGetA : Cache := (getCachedContent 1000000 c2cacheAB ("A") 3).2

/-- After `set C` at 4. -/
def c2cacheABC : Cache := setCachedContent 1000000 2 c2afterGetA ("C") ("contentC") 4

/-- After `set D` at 5. -/
def c2cacheFinal : Cache := setCachedContent 1000000 2 c2cacheABC ("D") ("contentD") 5

/-- Claim C2, counterexample.  With maxSize = 2: insert A, insert B, read A
(which does return A's content), then insert C.  The claim says B is evicted;
in the code nothing is evicted (the sweep only removes entries when the size
*strictly exceeds* the maximum, and C is inserted afterwards), so B is still
present and the cache holds three entries. -/
theorem cache_insert_beyond_max_keeps_B_counterexample :
    (getCachedContent 1000000 c2cacheAB ("A") 3).1 = some ("contentA") ∧
    (assocFind c2cacheABC ("B")).isSome = true ∧
    c2cacheABC.length = 3 := by
  decide

/-- Claim C2, corrected.  `get` behaves as claimed: it returns the stored
content and touches `lastUsed` exactly when the entry exists with age below
the TTL, and reports absent otherwise.  `set` sweeps TTL-expired entries, but
evicts by ascending `lastUsed` only when the size *strictly exceeds* the
configured maximum, and only down to exactly the maximum, before inserting;
so with maxSize = 2, after inserting A and B, reading A and inserting C all
three entries are present, and only the next insertion (D) evicts the
least-recently-used entry B, retaining A, C and D. -/
theorem cache_ttl_lru_spec :
    (∀ (ttl : Nat) (cache : Cache) (key : String) (now : Nat),
      assocFind cache key = none → getCachedContent ttl cache key now = (none, cache)) ∧
    (∀ (ttl : Nat) (cache : Cache) (key : String) (now : Nat) (e : CacheEntry),
      assocFind cache key = some e →
      (now - e.timestamp < ttl →
        getCachedContent ttl cache key now = (some e.content, touchLU cache key now)) ∧
      (¬ now - e.timestamp < ttl → getCachedContent ttl cache key now = (none, cache))) ∧
    ((assocFind c2cacheABC ("A")).isSome = true ∧ (assocFind c2cacheABC ("B")).isSome = true ∧
      (assocFind c2cacheABC ("C")).isSome = true ∧ c2cacheABC.length = 3) ∧
    (assocFind c2cacheFinal ("B") = none ∧ (assocFind c2cacheFinal ("A")).isSome = true ∧
      (assocFind c2cacheFinal ("C")).isSome = true ∧
      (assocFind c2cacheFinal ("D")).isSome = true ∧ c2cacheFinal.length = 3) := by
  refine ⟨?_, ?_, by decide, by decide⟩
  · intro ttl cache key now h
    simp [getCachedContent, h]
  · intro ttl cache key now e h
    constructor
    · intro hf
      simp [getCachedContent, h, hf]
    · intro hf
      simp [getCachedContent, h, hf]

/-- Witness for `cache_ttl_lru_spec`: a concrete fresh-hit `get`. -/
theorem cache_ttl_lru_spec_witness :
    getCachedContent 10 [(("K"), (⟨("v"), 0, 0⟩ : CacheEntry))] ("K") 5
      = (some ("v"), touchLU [(("K"), (⟨("v"), 0, 0⟩ : CacheEntry))] ("K") 5) :=
  (cache_ttl_lru_spec.2.1 10 [(("K"), (⟨("v"), 0, 0⟩ : CacheEntry))] ("K") 5
    ⟨("v"), 0, 0⟩ (by decide)).1 (by decide)

/-! ## Post-processor traces and claims C3, C4, C5 -/

/-- C3 trace: an answer mentioning the product model number three times and
the word `datasheet` (the plain-text datasheet placeholder) once. -/
def c3answer : String :=
  "The HLG-100H is efficient. HLG-100H supports dimming. Order HLG-100H today. See the datasheet for details."

/-- C3 trace: the post-processed answer, with a datasheet URL and the
product title supplied. -/
def c3out : String :=
  processAskEdResponse c3answer ("https://ex.com/ds.pdf") ("HLG-100H LED Driver")

/-- Claim C3, counterexample.  An answer that mentions the quote-request
entity twice as a bare URL receives *two* hyperlinks to the fixed
quote-request target (step 5 wraps every remaining raw URL and ignores the
dedup flags), refuting "at most one hyperlink for the fixed quote-request
target no matter how many times the underlying text mentions it".
Hyperlinks to the entity are counted as occurrences of the anchor-opening
text `<a href="` followed by the entity's URL. -/
theorem postprocess_rfq_double_link_counterexample :
    ¬ (countSub (processAskEdResponse
        ("https://www.bravoelectro.com/rfq-form https://www.bravoelectro.com/rfq-form") ("") (""))
        ("<a href=\"https://www.bravoelectro.com/rfq-form\"") ≤ 1) := by
  decide

/-- Claim C3, corrected.  When the entity mentions appear as markdown links
or plain text (no bare URLs in the input), each canonical entity is linked at
most once: on the claim's own example (model number three times, the word
`datasheet` once) the output contains exactly one anchor whose `href` target
is the product-page URL and exactly one whose target is the supplied
datasheet URL, the model number occurs exactly three times (once as the
anchor text, twice as plain text), and no quote-request anchor appears.
(A later raw-URL pass corrupts the two inserted anchors by re-wrapping the
URL inside their `href` attribute, so anchors are counted as occurrences of
`<a href="` followed by the entity URL.) -/
theorem postprocess_entity_dedup_example :
    countSub c3out ("<a href=\"https://www.bravoelectro.com/hlg-100h.html\"") = 1 ∧
    countSub c3out ("<a href=\"https://ex.com/ds.pdf\"") = 1 ∧
    countSub c3out ("HLG-100H") = 3 ∧
    countSub c3out ("<a href=\"https://www.bravoelectro.com/rfq-form\"") = 0 := by
  decide

/-- C4 trace: a bare site URL. -/
def c4input : String := "Visit https://www.bravoelectro.com now"

/-- C4 trace: the (clean) output of the first application. -/
def c4once : String :=
  "Visit <a href=\"https://www.bravoelectro.com\" target=\"_blank\" style=\"color: white; text-decoration: underline;\">product page</a> now"

/-- Claim C4 (code bug).  The first application wraps the bare URL in an
anchor; the second application matches `\bhttps?:\/\/[^\s\)]+` *inside the
`href` attribute of that anchor* (the character class does not exclude `"`)
and wraps it again, so re-processing changes the output: the post-processor
is not idempotent and double-wraps its own hyperlinks. -/
theorem postprocess_not_idempotent :
    processAskEdResponse c4input ("") ("") = c4once ∧
    processAskEdResponse c4once ("") ("") ≠ c4once := by
  decide

/-- C5 trace: a markdown link to a relative `.html` path plus a bare
`meanwell.com` URL. -/
def c5input : String := "See [guide](docs/setup.html) and https://www.meanwell.com/abc now"

/-- C5 trace: the post-processed answer. -/
def c5out : String := processAskEdResponse c5input ("") ("")

/-- Claim C5, counterexample.  The relative-`.html` markdown link is demoted
to its plain visible text as claimed, but the bare `meanwell.com` URL is
linked with visible text `datasheet`, not the claimed generic fallback: the
URL contains neither `rfq-form`, nor `datasheet`/`.pdf`, nor the site domain
`bravoelectro.com`, yet the source has a fourth sniffing branch mapping
`meanwell` to `datasheet` before the generic fallback. -/
theorem postprocess_meanwell_sniff_counterexample :
    c5out = ("See guide and <a href=\"https://www.meanwell.com/abc\" target=\"_blank\" style=\"color: white; text-decoration: underline;\">datasheet</a> now") ∧
    countSub c5out (">here</a>") = 0 ∧ countSub c5out (">link</a>") = 0 := by
  decide

/-- Claim C5, corrected.  Markdown links whose target is a relative `.html`
path (or a placeholder like `#`) are demoted to their visible text with no
`<a>` markup around it, and each bare `http(s)://` URL elsewhere becomes an
anchor whose text is sniffed from the URL: `rfq-form` gives `RFQ Form`,
`datasheet`/`.pdf` gives `datasheet`, the site domain `bravoelectro.com`
gives `product page`, `meanwell` also gives `datasheet`, and anything else
gives the generic `here`; exhibited on one representative input per branch. -/
theorem postprocess_demote_and_linkify :
    processAskEdResponse ("Read [manual](a/b.html) or https://ex.com/f.pdf") ("") ("")
      = ("Read manual or <a href=\"https://ex.com/f.pdf\" target=\"_blank\" style=\"color: white; text-decoration: underline;\">datasheet</a>") ∧
    processAskEdResponse ("Go https://www.bravoelectro.com/rfq-form") ("") ("")
      = ("Go <a href=\"https://www.bravoelectro.com/rfq-form\" target=\"_blank\" style=\"color: white; text-decoration: underline;\">RFQ Form</a>") ∧
    processAskEdResponse ("Go https://www.bravoelectro.com/products") ("") ("")
      = ("Go <a href=\"https://www.bravoelectro.com/products\" target=\"_blank\" style=\"color: white; text-decoration: underline;\">product page</a>") ∧
    processAskEdResponse ("Go https://other.org/a") ("") ("")
      = ("Go <a href=\"https://other.org/a\" target=\"_blank\" style=\"color: white; text-decoration: underline;\">here</a>") ∧
    processAskEdResponse ("See [spec](#) now") ("") ("") = ("See spec now") := by
  decide

/-! ## Datasheet soft failure and claim C6 -/

/-- C6 trace: a request whose model call succeeds with whitespace-only
content. -/
def c6envWS : Env :=
  ⟨("POST"), none, some ("1.2.3.4"), 0, true, Except.error (), Except.ok (some (" "))⟩

/-- C6 trace: a well-formed question with a datasheet URL. -/
def c6body : ReqBody :=
  ⟨("What is the voltage?"), ("Voltage: 24V"), ("HLG-100H"), ("https://ex.com/ds.pdf"), (""), ("")⟩

/-- Claim C6, counterexample.  With the datasheet fetch failing and the model
call *succeeding* with the whitespace-only content `" "` (a truthy string in
JavaScript, so the fallback apology is not substituted), the handler returns
status 200 whose `answer` field is the empty string — post-processing trims
it away — contradicting "returns a 200 response with a non-empty answer
field provided the model call succeeds". -/
theorem handler_whitespace_empty_answer_counterexample :
    (handler c6envWS c6body ⟨[], [], []⟩).1.status = 200 ∧
    (handler c6envWS c6body ⟨[], [], []⟩).1.answer = some ("") := by
  decide

/-- Claim C6, corrected.  For every URL, when there is no (nonempty) fresh
cache entry and either the PDF library is unavailable or the fetch/decode
fails, `fetchPDFContent` returns the empty string (it is a total function of
the oracle outcome, so it never raises); and the overall request still
completes the pipeline with a 200 response whose `answer` is the
post-processed model content whenever the model call succeeds with nonempty
content — the answer is therefore non-empty exactly when that post-processed
text is (null or empty content is replaced by a fixed non-empty apology, but
whitespace-only content post-processes to the empty string). -/
theorem fetch_soft_fail_still_200 :
    (∀ (pdfAvail : Bool) (fetchRes : Except Unit String) (cache : Cache) (url : String) (now : Nat),
      (getCachedContent CACHE_DURATION cache url now).1.getD ("") = "" →
      pdfAvail = false ∨ fetchRes = Except.error () →
      (fetchPDFContent pdfAvail fetchRes cache url now).1 = "") ∧
    (∀ (env : Env) (body : ReqBody) (st : ServerState) (c : String),
      env.method = "POST" →
      body.question ≠ "DEBUG_MODEL_CHECK" →
      body.question ≠ "" → body.productSpecs ≠ "" → body.productTitle ≠ "" →
      body.question.length ≤ 500 →
      validateInput body.question = true →
      (isRateLimited st.rateLimitStore (computeUserIP env.xff env.remoteAddr) env.now).1 = false →
      env.modelResult = Except.ok (some c) → c ≠ "" →
      (handler env body st).1.status = 200 ∧
      (handler env body st).1.answer
        = some (processAskEdResponse c body.datasheetUrl body.productTitle)) := by
  constructor
  · intro pdfAvail fetchRes cache url now hmiss hfail
    rcases hfail with h | h
    · subst h
      simp [fetchPDFContent, hmiss]
    · subst h
      cases pdfAvail <;> simp [fetchPDFContent, hmiss]
  · intro env body st c hm hdbg hq hs ht hlen hvalid hrl hmodel hc
    have h1 : ¬ env.method = "OPTIONS" := by rw [hm]; decide
    have h2 : ¬ env.method ≠ "POST" := by simp [hm]
    have h3 : ¬ (body.question = "" ∨ body.productSpecs = "" ∨ body.productTitle = "") := by
      simp [hq, hs, ht]
    have h4 : ¬ (500 < body.question.length) := by omega
    simp only [handler, if_neg h1, if_neg h2, if_neg hdbg, if_neg h3, if_neg h4,
      hvalid, hrl, hmodel, if_neg hc, Bool.not_true, Bool.false_eq_true, if_false]
    exact ⟨rfl, rfl⟩

/-- Witness for `fetch_soft_fail_still_200`: a concrete failed fetch and a
concrete successful request around it. -/
theorem fetch_soft_fail_still_200_witness :
    (fetchPDFContent false (Except.error ()) [] ("u") 0).1 = "" ∧
    ((handler ⟨("POST"), none, some ("1.2.3.4"), 0, true, Except.error (),
        Except.ok (some ("The output is 24V."))⟩
      ⟨("What is the voltage?"), ("Voltage: 24V"), ("HLG-100H"), (""), (""), ("")⟩
      ⟨[], [], []⟩).1.status = 200 ∧
     (handler ⟨("POST"), none, some ("1.2.3.4"), 0, true, Except.error (),
        Except.ok (some ("The output is 24V."))⟩
      ⟨("What is the voltage?"), ("Voltage: 24V"), ("HLG-100H"), (""), (""), ("")⟩
      ⟨[], [], []⟩).1.answer = some (processAskEdResponse ("The output is 24V.") ("") ("HLG-100H"))) :=
  ⟨fetch_soft_fail_still_200.1 false (Except.error ()) [] ("u") 0 (by decide) (Or.inl rfl),
   fetch_soft_fail_still_200.2
     ⟨("POST"), none, some ("1.2.3.4"), 0, true, Except.error (),
        Except.ok (some ("The output is 24V."))⟩
     ⟨("What is the voltage?"), ("Voltage: 24V"), ("HLG-100H"), (""), (""), ("")⟩
     ⟨[], [], []⟩ ("The output is 24V.") rfl (by decide) (by decide) (by decide) (by decide)
     (by decide) (by decide) (by decide) rfl (by decide)⟩

/-! ## Section-extraction specification and claim C7 -/

/-- The executable prefix test agrees with `List.IsPrefix`. -/
theorem isPre_correct (p s : List Char) : isPre p s = true ↔ p <+: s := by
  induction p generalizing s with
  | nil => simp [isPre]
  | cons a ps ih =>
    cases s with
    | nil =>
      simp [isPre]
    | cons b ss =>
      simp [isPre, List.cons_prefix_cons, ih]

/-- `k` occurs case-insensitively at index `i` of `t`: the ASCII-lowered `k`
is a prefix of the ASCII-lowered `t` dropped at `i`. -/
def OccursCIAt (t k : String) (i : Nat) : Prop :=
  lcL k.data <+: (lcL t.data).drop i

instance (t k : String) (i : Nat) : Decidable (OccursCIAt t k i) :=
  decidable_of_iff _ (isPre_correct (lcL k.data) ((lcL t.data).drop i))

/-- `k` occurs case-insensitively somewhere in `t`. -/
def OccursCI (t k : String) : Prop := ∃ i, i ≤ t.data.length ∧ OccursCIAt t k i

/-- The occurrence positions are bounded, so `OccursCI` is equivalent to a
search over `List.range`. -/
theorem occursCI_iff_bex (t k : String) :
    (∃ i ∈ List.range (t.data.length + 1), OccursCIAt t k i) ↔ OccursCI t k := by
  constructor
  · rintro ⟨i, hi, h⟩
    exact ⟨i, Nat.lt_succ_iff.mp (List.mem_range.mp hi), h⟩
  · rintro ⟨i, hi, h⟩
    exact ⟨i, List.mem_range.mpr (Nat.lt_succ_of_le hi), h⟩

instance (t k : String) : Decidable (OccursCI t k) :=
  decidable_of_iff _ (occursCI_iff_bex t k)

/-- If `idxOfSub` finds `k` at `i`, then `i` is in range, `k` is a prefix of
`t.drop i`, and no earlier position carries an occurrence (it is JavaScript's
`indexOf`: the *first* occurrence). -/
theorem idxOfSub_some (k : List Char) : ∀ (t : List Char) (i : Nat),
    idxOfSub k t = some i →
    i ≤ t.length ∧ (k <+: t.drop i) ∧ ∀ j, j < i → ¬ (k <+: t.drop j) := by
  intro t
  induction t with
  | nil =>
    intro i h
    by_cases hk : isPre k [] = true
    · simp [idxOfSub, hk] at h
      subst h
      exact ⟨Nat.le_refl 0, (isPre_correct k []).mp hk, fun j hj => absurd hj (Nat.not_lt_zero j)⟩
    · simp [idxOfSub, hk] at h
  | cons c cs ih =>
    intro i h
    by_cases hp : isPre k (c :: cs) = true
    · simp [idxOfSub, hp] at h
      subst h
      exact ⟨Nat.zero_le _, (isPre_correct k (c :: cs)).mp hp,
        fun j hj => absurd hj (Nat.not_lt_zero j)⟩
    · simp [idxOfSub, hp] at h
      obtain ⟨i2, hi2, hi⟩ := h
      obtain ⟨hle, hpre, hmin⟩ := ih i2 hi2
      subst hi
      refine ⟨Nat.succ_le_succ hle, hpre, ?_⟩
      intro j hj
      cases j with
      | zero =>
        intro hcontra
        exact hp ((isPre_correct k (c :: cs)).mpr hcontra)
      | succ j2 =>
        exact hmin j2 (Nat.lt_of_succ_lt_succ hj)

/-- If `idxOfSub` reports no occurrence, there is none at any position. -/
theorem idxOfSub_none (k : List Char) : ∀ (t : List Char),
    idxOfSub k t = none → ∀ j, ¬ (k <+: t.drop j) := by
  intro t
  induction t with
  | nil =>
    intro h j hc
    have : isPre k [] = true := (isPre_correct k _).mpr (by simpa using hc)
    simp [idxOfSub, this] at h
  | cons c cs ih =>
    intro h j
    by_cases hp : isPre k (c :: cs) = true
    · simp [idxOfSub, hp] at h
    · simp [idxOfSub, hp] at h
      cases j with
      | zero =>
        intro hc
        exact hp ((isPre_correct k (c :: cs)).mpr hc)
      | succ j2 =>
        exact ih h j2

/-- Claim C7 (confirmed).  `extractSection` returns the empty string when no
keyword of the list occurs case-insensitively in the text; and when the
keywords split as `pre ++ k :: post` with no keyword of `pre` occurring and
`i` the first case-insensitive occurrence of `k`, it returns the substring of
the *original* text starting at `i` of length `min maxLength
(remaining text length)`. -/
theorem extractSection_spec :
    (∀ (text : String) (keywords : List String) (maxLength : Nat),
      (∀ k ∈ keywords, ¬ OccursCI text k) →
      extractSection text keywords maxLength = "") ∧
    (∀ (text : String) (pre : List String) (k : String) (post : List String)
        (maxLength i : Nat),
      (∀ k2 ∈ pre, ¬ OccursCI text k2) →
      OccursCIAt text k i →
      (∀ j, j < i → ¬ OccursCIAt text k j) →
      extractSection text (pre ++ k :: post) maxLength
        = String.mk ((text.data.drop i).take (min maxLength (text.data.length - i)))) := by
  constructor
  · intro text keywords
    induction keywords with
    | nil =>
      intro maxLength _
      rfl
    | cons k ks ih =>
      intro maxLength h
      cases hidx : idxOfSub (lcL k.data) (lcL text.data) with
      | some i =>
        obtain ⟨hle, hpre, _⟩ := idxOfSub_some _ _ _ hidx
        exact absurd ⟨i, by simpa [lcL] using hle, hpre⟩ (h k (List.mem_cons_self _ _))
      | none =>
        have := ih maxLength (fun k2 hk2 => h k2 (List.mem_cons_of_mem _ hk2))
        simpa [extractSection, extractSectionL, hidx] using this
  · intro text pre
    induction pre with
    | nil =>
      intro k post maxLength i hpre hocc hmin
      cases hidx : idxOfSub (lcL k.data) (lcL text.data) with
      | none =>
        exact absurd hocc (idxOfSub_none _ _ hidx i)
      | some i2 =>
        obtain ⟨hle, hpre2, hmin2⟩ := idxOfSub_some _ _ _ hidx
        have hii : i = i2 := by
          rcases Nat.lt_trichotomy i i2 with h | h | h
          · exact absurd hocc (hmin2 i h)
          · exact h
          · exact absurd hpre2 (hmin i2 h)
        subst hii
        have harith : min (i + maxLength) text.data.length - i
            = min maxLength (text.data.length - i) := by omega
        simp only [extractSection, extractSectionL, List.map, List.nil_append, hidx]
        rw [harith]
    | cons k2 pre2 ih =>
      intro k post maxLength i hpre hocc hmin
      cases hidx : idxOfSub (lcL k2.data) (lcL text.data) with
      | some i2 =>
        obtain ⟨hle, hpre2, _⟩ := idxOfSub_some _ _ _ hidx
        exact absurd ⟨i2, by simpa [lcL] using hle, hpre2⟩ (hpre k2 (List.mem_cons_self _ _))
      | none =>
        have := ih k post maxLength i (fun x hx => hpre x (List.mem_cons_of_mem _ hx)) hocc hmin
        simpa [extractSection, extractSectionL, hidx] using this

/-- Witness for `extractSection_spec`: the keyword `electrical spec` first
occurs (case-insensitively) at index 10 and a 10-character window is sliced
from the original text. -/
theorem extractSection_spec_witness :
    extractSection ("AC Input. Electrical Specification: 24V")
        ([("nope")] ++ ("electrical spec") :: []) 10 = ("Electrical") := by
  rw [extractSection_spec.2 ("AC Input. Electrical Specification: 24V") [("nope")]
    ("electrical spec") [] 10 10 (by decide) (by decide) (by decide)]
  decide

/-! ## Raw-text fallback and claim C8 -/

/-- Appending the empty string is the identity on `String`. -/
theorem str_append_empty (s : String) : s ++ ("") = s := by
  cases s with
  | mk data =>
    show String.mk (data ++ []) = String.mk data
    rw [List.append_nil]

/-- Claim C8, counterexample.  On a decoded text whose electrical section *is*
found but whose voltage-adjust section is not, the combined result still
contains the raw-text fallback block — the fallback does not fire "exactly
when no priority section is found"; it fires whenever the electrical or the
voltage-adjust section is missing, even with other priority sections
present. -/
theorem fallback_despite_section_found_counterexample :
    extractSection ("electrical specification 24V output") electricalKeys 3000 ≠ "" ∧
    countSub (combineContent ("electrical specification 24V output"))
      ("ADDITIONAL DATASHEET TEXT:") = 1 := by
  decide

/-- Claim C8, corrected.  The raw-text fallback block (a prefix of the raw
decoded text under the label `ADDITIONAL DATASHEET TEXT:`) is appended exactly
when the electrical section or the voltage-adjust section is missing: when
both are found the combined result is just the labelled found-section blocks;
and when *no* priority section is found the combined result is the header
followed only by the fallback block — so the claim's "none found implies
fallback" half holds, but the "exactly" half does not. -/
theorem fallback_condition :
    (∀ p : String,
      extractSection p electricalKeys 3000 ≠ "" →
      extractSection p voltageAdjustKeys 3000 ≠ "" →
      combineContent p = sectionBlocks p) ∧
    (∀ p : String,
      extractSection p electricalKeys 3000 = "" ∨ extractSection p voltageAdjustKeys 3000 = "" →
      combineContent p = sectionBlocks p ++ fallbackBlock p) ∧
    (∀ p : String,
      extractSection p electricalKeys 3000 = "" →
      extractSection p voltageAdjustKeys 3000 = "" →
      extractSection p currentAdjustKeys 2000 = "" →
      extractSection p mechanicalKeys 2000 = "" →
      extractSection p suffixInfoKeys 1500 = "" →
      extractSection p constantCurrentKeys 2000 = "" →
      extractSection p modelTableKeys 4000 = "" →
      extractSection p dimmingKeys 1500 = "" →
      combineContent p = ("COMPLETE DATASHEET CONTENT:\n\n") ++ fallbackBlock p) := by
  refine ⟨?_, ?_, ?_⟩
  · intro p h1 h2
    simp [combineContent, h1, h2, str_append_empty]
  · intro p h
    rcases h with h | h <;> simp [combineContent, h]
  · intro p h1 h2 h3 h4 h5 h6 h7 h8
    simp [combineContent, sectionBlocks, h1, h2, h3, h4, h5, h6, h7, h8, str_append_empty]

/-- Witness for `fallback_condition`: when both the electrical and the
voltage-adjust section are found no fallback is appended, and when nothing is
found the result is the header plus the fallback alone. -/
theorem fallback_condition_witness :
    combineContent ("voltage adjustment and electrical spec info")
      = sectionBlocks ("voltage adjustment and electrical spec info") ∧
    combineContent ("zzz") = ("COMPLETE DATASHEET CONTENT:\n\n") ++ fallbackBlock ("zzz") :=
  ⟨fallback_condition.1 ("voltage adjustment and electrical spec info") (by decide) (by decide),
   fallback_condition.2.2 ("zzz") (by decide) (by decide) (by decide) (by decide) (by decide)
     (by decide) (by decide) (by decide)⟩

/-! ## Debug sentinel and claim C9 -/

/-- Claim C9 (confirmed).  For every request state and environment, a POST
whose question equals the sentinel `DEBUG_MODEL_CHECK` returns the static
diagnostic payload (model identifier, version, the two cache sizes, the
configured `maxTokens`) with status 200 and leaves the server state — in
particular the rate-limit store — unchanged.  The equation's right-hand side
does not mention the fetch or model oracles, so neither extraction nor the
model call can influence the outcome; and since the body's other fields are
unconstrained (they may even be empty, which would otherwise be a 400), the
sentinel check runs before field validation, rate limiting and the rest of
the pipeline, directly after the method/shape checks. -/
theorem debug_sentinel_frame (env : Env) (body : ReqBody) (st : ServerState)
    (hm : env.method = "POST") (hq : body.question = "DEBUG_MODEL_CHECK") :
    handler env body st = (debugResp st, st) := by
  have h1 : ¬ env.method = "OPTIONS" := by rw [hm]; decide
  have h2 : ¬ env.method ≠ "POST" := by simp [hm]
  simp [handler, h1, h2, hq]

/-- Witness for `debug_sentinel_frame`: a concrete sentinel request with
empty required fields and failing oracles still yields the diagnostic
payload with the state unchanged. -/
theorem debug_sentinel_frame_witness :
    handler (⟨("POST"), none, none, 0, false, Except.error (), Except.error ()⟩ : Env)
        (⟨("DEBUG_MODEL_CHECK"), (""), (""), (""), (""), ("")⟩ : ReqBody)
        (⟨[], [], []⟩ : ServerState)
      = (debugResp ⟨[], [], []⟩, (⟨[], [], []⟩ : ServerState)) :=
  debug_sentinel_frame _ _ _ rfl rfl

/-! ## Shared `unknown` rate-limit key and claim C10 -/

/-- Claim C10 (confirmed).  A request with neither an `x-forwarded-for`
header nor a socket remote address gets the constant client key `unknown`;
two such calls therefore update one and the same store record (one entry,
count 2), the per-minute ceiling applies to all of them jointly (the sixth
such call is limited), and a full handler run of such a request creates the
single store entry under the key `unknown`. -/
theorem unknown_client_shared_counter :
    computeUserIP none none = ("unknown") ∧
    (runRL ("unknown") [] [0, 0]).2
      = [(("unknown"), (⟨2, 60000, 2, 86400000⟩ : UserLimit))] ∧
    (runRL (computeUserIP none none) [] [0, 0, 0, 0, 0, 0]).1
      = [false, false, false, false, false, true] ∧
    ((handler (⟨("POST"), none, none, 0, true, Except.error (), Except.ok (some ("Hi"))⟩ : Env)
        (⟨("What is the voltage?"), ("V: 24"), ("HLG-100H"), (""), (""), ("")⟩ : ReqBody)
        (⟨[], [], []⟩ : ServerState)).2).rateLimitStore
      = [(("unknown"), (⟨1, 60000, 1, 86400000⟩ : UserLimit))] := by
  decide

end AskEd
